import Mathlib

/-!
Shallow embedding of the GPU telemetry harvester (`src/collection/gpu.rs`,
`src/collection/nvidia.rs`, `src/collection/apple.rs`) and proofs about it.

Modelling conventions:
* Rust `u32`/`u64` readings are modelled as `Nat`; where wrap-around matters
  (the `u32` sum `sm_util + enc_util + dec_util`) an explicit `% 2^32` is taken.
* Rust `f32` values are modelled as exact rationals (`Rat`): the arithmetic the
  code performs (`draw as f32 / limit as f32 * 100.0`, `clamp(0.0, 100.0)`) is
  represented by the corresponding exact rational operations.
* Fallible native calls (`Result`, IOKit status codes) are modelled as `Option`
  fields of an environment structure; the harvester is a pure function of that
  environment.  Every native call the code issues is additionally recorded in a
  trace, so that claims about which native APIs are consulted can be stated.
-/

/-- GPU metric type - either power draw or utilization percentage.
(`GpuMetric` in `src/collection/gpu.rs` and `src/collection/nvidia.rs`.) -/
inductive GpuMetric where
  /-- Power draw in milliwatts with optional power limit. -/
  | Power (draw_mw : Nat) (limit_mw : Option Nat)
  /-- Utilization as a percentage (0-100); `f32` modelled as `Rat`. -/
  | Utilization (pct : Rat)
deriving Repr, DecidableEq

/-- `GpuMetric::as_percentage` from `src/collection/gpu.rs` lines 34-50
(identical copy in `src/collection/nvidia.rs` lines 26-42). -/
def GpuMetric.as_percentage : GpuMetric → Rat
  | .Power draw_mw limit_mw =>
    match limit_mw with
    | some limit =>
      if limit > 0 then ((draw_mw : Rat) / (limit : Rat)) * 100 else 0
    | none => 0
  | .Utilization pct => pct

/-- `GpuMetric::is_power` from `src/collection/gpu.rs`. -/
def GpuMetric.is_power : GpuMetric → Bool
  | .Power _ _ => true
  | .Utilization _ => false

/-- `Default for GpuMetric` from `src/collection/gpu.rs`. -/
def GpuMetric.default : GpuMetric := .Utilization 0

/-- The data-model invariant stated in the spec for `GpuMetric`:
a `Utilization` payload is always in `[0, 100]`; `Power` carries raw readings. -/
def GpuMetric.wf : GpuMetric → Prop
  | .Power _ _ => True
  | .Utilization pct => 0 ≤ pct ∧ pct ≤ 100

/-- `GpuData` from `src/collection/gpu.rs`. -/
structure GpuData where
  name : String
  metric : GpuMetric
deriving Repr, DecidableEq

/-- `MemData` from `src/collection/memory.rs` as used by the nvidia probe:
`total_bytes` is a `NonZeroU64` in the source; here a `Nat` that is only ever
stored behind the `NonZeroU64::new(mem.total)` guard (`total ≠ 0`). -/
structure MemData where
  total_bytes : Nat
  used_bytes : Nat
deriving Repr, DecidableEq

/-- `TempSensorData` from `src/collection/temperature.rs` as used by the nvidia
probe: the `u32` sensor reading (cast to `f32` in the source) kept as `Nat`. -/
structure TempSensorData where
  name : String
  temperature : Option Nat
deriving Repr, DecidableEq

/-- One entry of `device.process_utilization_stats(None)`: pid plus the
shader (sm), encoder and decoder engine busy percentages (`u32`). -/
structure UtilSample where
  pid : Nat
  sm_util : Nat
  enc_util : Nat
  dec_util : Nat
deriving Repr, DecidableEq

/-- One entry of the three process-memory APIs (`running_compute_processes`,
`running_graphics_processes_v2`, `running_graphics_processes`): pid plus
`used_gpu_memory`, where `none` models `UsedGpuMemory::Unavailable`. -/
structure ProcSample where
  pid : Nat
  used_gpu_memory : Option Nat
deriving Repr, DecidableEq

/-- The per-device `HashMap<u32, (u64, u32)>` of the merge, modelled as an
association list without duplicate keys: entries `(pid, memory_bytes,
utilization_pct)`.  Only insertion and lookup are used by the source. -/
abbrev ProcMap := List (Nat × Nat × Nat)

/-- `HashMap::get` on the merge map. -/
def pmGet (m : ProcMap) (pid : Nat) : Option (Nat × Nat) :=
  match m with
  | [] => none
  | e :: rest => if e.1 = pid then some e.2 else pmGet rest pid

/-- `HashMap::insert` on the merge map: replaces an existing entry for the key
in place, otherwise appends a new entry. -/
def pmInsert (m : ProcMap) (pid : Nat) (v : Nat × Nat) : ProcMap :=
  match m with
  | [] => [(pid, v)]
  | e :: rest => if e.1 = pid then (pid, v) :: rest else e :: pmInsert rest pid v

/-- `UsedGpuMemory` conversion in each memory pass:
`Used(val) => val, Unavailable => 0` (`src/collection/nvidia.rs`). -/
def memOf : Option Nat → Nat
  | some val => val
  | none => 0

/-- Loop body of pass 1 (`process_utilization_stats`), lines 146-150 of
`src/collection/nvidia.rs`: `procs.insert(pid, (0, sm + enc + dec))`, the `u32`
sum taken modulo `2^32`. -/
def utilStep (m : ProcMap) (s : UtilSample) : ProcMap :=
  pmInsert m s.pid (0, (s.sm_util + s.enc_util + s.dec_util) % 2 ^ 32)

/-- Pass 1 over all samples, in order. -/
def passUtil : List UtilSample → ProcMap → ProcMap
  | [], m => m
  | s :: rest, m => passUtil rest (utilStep m s)

/-- Loop body of each memory pass (compute / graphics v2 / legacy graphics),
lines 154-165 etc. of `src/collection/nvidia.rs`: overwrite `memory_bytes`,
keep the previous `utilization_pct` (`prev.1` in the source), default it to 0
for a new pid. -/
def memStep (m : ProcMap) (s : ProcSample) : ProcMap :=
  let gpu_mem := memOf s.used_gpu_memory
  match pmGet m s.pid with
  | some prev => pmInsert m s.pid (gpu_mem, prev.2)
  | none => pmInsert m s.pid (gpu_mem, 0)

/-- One memory pass over all samples, in order. -/
def passMem : List ProcSample → ProcMap → ProcMap
  | [], m => m
  | s :: rest, m => passMem rest (memStep m s)

/-- Native per-device query results of the NVML driver as seen by
`get_nvidia_vecs`; `none` models an `Err` result of the corresponding call. -/
structure NvmlDevice where
  name : Option String
  /-- `memory_info()`: `(total, used)` bytes. -/
  memory_info : Option (Nat × Nat)
  /-- `temperature(TemperatureSensor::Gpu)`. -/
  temperature : Option Nat
  process_utilization_stats : Option (List UtilSample)
  running_compute_processes : Option (List ProcSample)
  running_graphics_processes_v2 : Option (List ProcSample)
  running_graphics_processes : Option (List ProcSample)
  power_usage : Option Nat
  power_management_limit : Option Nat

/-- The NVML environment for one harvest call: whether `init_nvml` (behind the
`OnceLock`) succeeds, the `device_count()` result, and the per-index device
handles (`none` models `device_by_index` failing). -/
structure NvmlEnv where
  init_ok : Bool
  device_count : Option Nat
  devices : Nat → Option NvmlDevice

/-- The demand flags consumed by the probes.  Modelled from the spec: the
source's `UsedWidgets` (in `app/layout_manager`, outside the given files)
carries one independent boolean per vertical; only these four fields are read
by the probe code. -/
structure UsedWidgets where
  use_mem : Bool
  use_temp : Bool
  use_proc : Bool
  use_gpu : Bool
deriving Repr, DecidableEq

/-- Modelled from the spec: `Filter::optional_should_keep(filter, &name)`
(in `app/filter`, outside the given files) applies an optional name-based
inclusion/exclusion filter, keeping every name when no filter is given. -/
def optional_should_keep (filter : Option (String → Bool)) (name : String) : Bool :=
  match filter with
  | some f => f name
  | none => true

/-- `GpusData` from `src/collection/nvidia.rs`. -/
structure GpusData where
  memory : Option (List (String × MemData))
  temperature : Option (List TempSensorData)
  procs : Option (Nat × List ProcMap)
  gpu_data : Option (List GpuData)

/-- One native call issued by `get_nvidia_vecs`, for the call trace. -/
inductive NCall where
  | init
  | deviceCount
  | deviceByIndex (i : Nat)
  | name (i : Nat)
  | memoryInfo (i : Nat)
  | temperature (i : Nat)
  | processUtilizationStats (i : Nat)
  | runningComputeProcesses (i : Nat)
  | runningGraphicsProcessesV2 (i : Nat)
  | runningGraphicsProcesses (i : Nat)
  | powerUsage (i : Nat)
  | powerManagementLimit (i : Nat)
deriving Repr, DecidableEq

/-- The contribution of one iteration of the device loop: the items pushed to
each of the four vectors, the `total_mem` increment, and the native calls
issued, in order. -/
structure DeviceStep where
  memPushes : List (String × MemData) := []
  tempPushes : List TempSensorData := []
  procPushes : List ProcMap := []
  gpuPushes : List GpuData := []
  totalInc : Nat := 0
  calls : List NCall := []

/-- Memory section of the loop (`src/collection/nvidia.rs` lines 111-123),
reached only when `device.name()` succeeded: under `use_mem`, call
`memory_info()` and push only when `NonZeroU64::new(mem.total)` succeeds. -/
def memSection (w : UsedWidgets) (d : NvmlDevice) (nm : String) (i : Nat) :
    List (String × MemData) × List NCall :=
  if w.use_mem then
    match d.memory_info with
    | some mi =>
      if mi.1 ≠ 0 then
        ([(nm, { total_bytes := mi.1, used_bytes := mi.2 })], [.memoryInfo i])
      else ([], [.memoryInfo i])
    | none => ([], [.memoryInfo i])
  else ([], [])

/-- Temperature section of the loop (lines 125-139), reached only when
`device.name()` succeeded: under `use_temp` and the name filter, call the
sensor; a failed read still pushes an entry with `temperature: None`. -/
def tempSection (filter : Option (String → Bool)) (w : UsedWidgets)
    (d : NvmlDevice) (nm : String) (i : Nat) :
    List TempSensorData × List NCall :=
  if w.use_temp && optional_should_keep filter nm then
    match d.temperature with
    | some t => ([{ name := nm, temperature := some t }], [.temperature i])
    | none => ([{ name := nm, temperature := none }], [.temperature i])
  else ([], [])

/-- The four-pass merge of lines 143-197: utilization stats first, then the
compute processes, then graphics v2, then the legacy graphics API, each pass
skipped when its native call fails. -/
def mergeDeviceProcs (d : NvmlDevice) : ProcMap :=
  let m : ProcMap := []
  let m := match d.process_utilization_stats with
    | some xs => passUtil xs m
    | none => m
  let m := match d.running_compute_processes with
    | some xs => passMem xs m
    | none => m
  let m := match d.running_graphics_processes_v2 with
    | some xs => passMem xs m
    | none => m
  match d.running_graphics_processes with
  | some xs => passMem xs m
  | none => m

/-- Process section of the loop (lines 142-207): under `use_proc`, run the
four merge passes, push the merged map only when nonempty, and accumulate the
device's total memory into the running grand total via a fresh
`memory_info()` call. -/
def procSection (w : UsedWidgets) (d : NvmlDevice) (i : Nat) :
    List ProcMap × Nat × List NCall :=
  if w.use_proc then
    let procs := mergeDeviceProcs d
    ((if procs.isEmpty then [] else [procs]),
     (match d.memory_info with
      | some mi => mi.1
      | none => 0),
     [.processUtilizationStats i, .runningComputeProcesses i,
      .runningGraphicsProcessesV2 i, .runningGraphicsProcesses i, .memoryInfo i])
  else ([], 0, [])

/-- Power section of the loop (lines 210-223): under `use_gpu`, re-query the
name, then the power draw; the limit is fetched (and may fail, giving `none`)
only after the draw succeeded. -/
def gpuSection (w : UsedWidgets) (d : NvmlDevice) (i : Nat) :
    List GpuData × List NCall :=
  if w.use_gpu then
    match d.name with
    | some nm =>
      match d.power_usage with
      | some p =>
        ([{ name := nm, metric := GpuMetric.Power p d.power_management_limit }],
         [.name i, .powerUsage i, .powerManagementLimit i])
      | none => ([], [.name i, .powerUsage i])
    | none => ([], [.name i])
  else ([], [])

/-- One iteration of the device loop of `get_nvidia_vecs` (lines 108-224):
`device_by_index(i)`, then an unconditional `device.name()` guarding the
memory and temperature sections, then the process and power sections. -/
def visitDevice (filter : Option (String → Bool)) (w : UsedWidgets)
    (env : NvmlEnv) (i : Nat) : DeviceStep :=
  match env.devices i with
  | none => { calls := [.deviceByIndex i] }
  | some d =>
    let mt : (List (String × MemData) × List NCall) × (List TempSensorData × List NCall) :=
      match d.name with
      | some nm => (memSection w d nm i, tempSection filter w d nm i)
      | none => (([], []), ([], []))
    let ps := procSection w d i
    let gs := gpuSection w d i
    { memPushes := mt.1.1
      tempPushes := mt.2.1
      procPushes := ps.1
      gpuPushes := gs.1
      totalInc := ps.2.1
      calls := .deviceByIndex i :: .name i :: (mt.1.2 ++ mt.2.2 ++ ps.2.2 ++ gs.2) }

/-- `get_nvidia_vecs` from `src/collection/nvidia.rs` lines 97-255, as a pure
function of the NVML environment, paired with the trace of native calls.  The
`OnceLock` initialization is modelled as the first call's `init`; a failed
init or `device_count()` returns `none`; otherwise the four vectors are
accumulated over the device range and each is converted to `none` when it
stayed empty. -/
def get_nvidia_vecs (filter : Option (String → Bool)) (w : UsedWidgets)
    (env : NvmlEnv) : Option GpusData × List NCall :=
  if env.init_ok then
    match env.device_count with
    | some n =>
      let steps := (List.range n).map (visitDevice filter w env)
      let mem_vec := steps.flatMap DeviceStep.memPushes
      let temp_vec := steps.flatMap DeviceStep.tempPushes
      let proc_vec := steps.flatMap DeviceStep.procPushes
      let gpu_data_vec := steps.flatMap DeviceStep.gpuPushes
      let total_mem := (steps.map DeviceStep.totalInc).sum
      (some
        { memory := if !mem_vec.isEmpty then some mem_vec else none
          temperature := if !temp_vec.isEmpty then some temp_vec else none
          procs := if !proc_vec.isEmpty then some (total_mem, proc_vec) else none
          gpu_data := if !gpu_data_vec.isEmpty then some gpu_data_vec else none },
       NCall.init :: NCall.deviceCount :: steps.flatMap DeviceStep.calls)
    | none => (none, [NCall.init, NCall.deviceCount])
  else (none, [NCall.init])

/-- A CoreFoundation property value as inspected by `extract_number` in
`src/collection/apple.rs`: either a `CFNumber` carrying a numeric value
(`f64`/`i64`/`i32`, all cast to `f32`; modelled as one exact `Rat`), or a
value of any other CF type. -/
inductive CFValue where
  | number (val : Rat)
  | other
deriving Repr, DecidableEq

/-- `extract_number` from `src/collection/apple.rs` lines 249-269: a numeric
value converts, any non-number yields `none`. -/
def extract_number : CFValue → Option Rat
  | .number val => some val
  | .other => none

/-- The fixed, ordered list of known utilization-key spellings,
`src/collection/apple.rs` lines 227-233. -/
def utilization_keys : List String :=
  ["Device Utilization %", "GPU Activity(%)", "GPU Core Utilization",
   "gpuCoreUtilization", "GPU Utilization"]

/-- Rust `f32::clamp(0.0, 100.0)` on the exact-rational model. -/
def clampPct (v : Rat) : Rat := min (max v 0) 100

/-- The key loop of `get_utilization_from_properties` (lines 235-243),
instrumented with the list of keys actually consulted (looked up via `find`):
each key is tried in order; on the first key whose lookup yields a value from
which a number can be extracted, the clamped number is returned and no later
key is consulted.  A key that is absent, or present with a non-numeric value,
lets the loop continue. -/
def lookupUtil (ps : String → Option CFValue) :
    List String → Option Rat × List String
  | [] => (none, [])
  | k :: rest =>
    match ps k with
    | some v =>
      match extract_number v with
      | some num => (some (clampPct num), [k])
      | none =>
        let r := lookupUtil ps rest
        (r.1, k :: r.2)
    | none =>
      let r := lookupUtil ps rest
      (r.1, k :: r.2)

/-- The properties of one IOAccelerator service, as consumed by
`get_utilization_from_properties`: the optional `PerformanceStatistics`
sub-dictionary, itself a string-keyed lookup of CF values. -/
structure AppleProps where
  perf_stats : Option (String → Option CFValue)

/-- `get_utilization_from_properties` from `src/collection/apple.rs` lines
210-246: `none` when the `PerformanceStatistics` dictionary is missing,
otherwise the key loop over `utilization_keys`. -/
def get_utilization_from_properties (properties : AppleProps) : Option Rat :=
  match properties.perf_stats with
  | none => none
  | some ps => (lookupUtil ps utilization_keys).1

/-- One IOAccelerator service as seen by `extract_gpu_data_from_service`:
`name` is `none` when `IORegistryEntryGetName` fails, `props` is `none` when
`IORegistryEntryCreateCFProperties` fails. -/
structure AppleService where
  name : Option String
  props : Option AppleProps

/-- `extract_gpu_data_from_service` from `src/collection/apple.rs` lines
151-162: name and properties must both be obtained; a missing utilization
reading defaults to `0.0` rather than skipping the device. -/
def extract_gpu_data_from_service (s : AppleService) : Option GpuData :=
  match s.name with
  | none => none
  | some nm =>
    match s.props with
    | none => none
    | some properties =>
      let utilization := get_utilization_from_properties properties
      some { name := nm, metric := GpuMetric.Utilization (utilization.getD 0) }

/-- The IOKit environment for one harvest call: whether `IOServiceMatching`
returns a non-null dictionary, whether `IOServiceGetMatchingServices`
succeeds, and the services the iterator yields before the null sentinel. -/
structure AppleEnv where
  matching_ok : Bool
  services_ok : Bool
  services : List AppleService

/-- `AppleGpusData` from `src/collection/apple.rs`. -/
structure AppleGpusData where
  gpu_data : Option (List GpuData)

/-- One native IOKit call issued by the apple probe, for the call trace. -/
inductive ACall where
  | serviceMatching
  | getMatchingServices
  | iteratorNext
  | registryEntryGetName
  | createCFProperties
  | objectRelease
deriving Repr, DecidableEq

/-- The IOKit calls made while handling one service in the loop of
`collect_gpu_data`: the iterator step that yielded it, the name read, the
property fetch (only reached when the name read succeeded), and the release
of the service object. -/
def serviceCalls (s : AppleService) : List ACall :=
  [ACall.iteratorNext, ACall.registryEntryGetName]
    ++ (match s.name with
        | some _ => [ACall.createCFProperties]
        | none => [])
    ++ [ACall.objectRelease]

/-- `collect_gpu_data` from `src/collection/apple.rs` lines 100-148, paired
with its IOKit call trace: abort on a null matching dictionary or a failed
service enumeration, otherwise fold the extractor over the yielded services
(a failed extraction skips that service only); the trailing `iteratorNext`
is the null sentinel and the final release frees the iterator. -/
def collect_gpu_data (env : AppleEnv) : Option (List GpuData) × List ACall :=
  if !env.matching_ok then (none, [ACall.serviceMatching])
  else if !env.services_ok then
    (none, [ACall.serviceMatching, ACall.getMatchingServices])
  else
    (some (env.services.filterMap extract_gpu_data_from_service),
     [ACall.serviceMatching, ACall.getMatchingServices]
       ++ env.services.flatMap serviceCalls
       ++ [ACall.iteratorNext, ACall.objectRelease])

/-- `get_apple_gpu_vecs` from `src/collection/apple.rs` lines 83-97, paired
with its IOKit call trace: an unset `use_gpu` flag returns before any native
call; a failed collection or an empty device list yields `none`; otherwise
the nonempty list is wrapped in `Some`. -/
def get_apple_gpu_vecs (w : UsedWidgets) (env : AppleEnv) :
    Option AppleGpusData × List ACall :=
  if !w.use_gpu then (none, [])
  else
    match collect_gpu_data env with
    | (none, tr) => (none, tr)
    | (some gpu_data_vec, tr) =>
      if gpu_data_vec.isEmpty then (none, tr)
      else (some { gpu_data := some gpu_data_vec }, tr)

/-- C4: `as_percentage()` on a `Power` metric returns `draw_mw / limit_mw * 100`
exactly when `limit_mw = some L` with `L > 0`, and returns `0` in every other
case: both for `limit_mw = some 0` (no division by zero) and for
`limit_mw = none`. -/
theorem c4_power_as_percentage :
    (∀ (draw L : Nat), 0 < L →
      (GpuMetric.Power draw (some L)).as_percentage = (draw : Rat) / (L : Rat) * 100)
    ∧ (∀ draw : Nat, (GpuMetric.Power draw (some 0)).as_percentage = 0)
    ∧ (∀ draw : Nat, (GpuMetric.Power draw none).as_percentage = 0) := by
  refine ⟨fun draw L hL => ?_, fun draw => rfl, fun draw => rfl⟩
  simp [GpuMetric.as_percentage, hL]

/-- Witness for C4: at `draw = 150`, `limit = 200` the hypothesis `0 < 200`
holds and the percentage is `150/200*100 = 75`. -/
theorem c4_power_as_percentage_witness :
    (GpuMetric.Power 150 (some 200)).as_percentage = (150 : Rat) / (200 : Rat) * 100
    ∧ (GpuMetric.Power 150 (some 200)).as_percentage = 75 := by
  refine ⟨c4_power_as_percentage.1 150 200 (by norm_num), ?_⟩
  rw [c4_power_as_percentage.1 150 200 (by norm_num)]
  norm_num

/-- C5: for every `p` in `[0, 100]`, `Utilization(p).as_percentage() = p`:
the utilization arm is the identity, no further transformation or clamping. -/
theorem c5_utilization_identity (p : Rat) (h0 : 0 ≤ p) (h100 : p ≤ 100) :
    (GpuMetric.Utilization p).as_percentage = p := rfl

/-- Witness for C5 at `p = 50`. -/
theorem c5_utilization_identity_witness :
    (0 : Rat) ≤ 50 ∧ (50 : Rat) ≤ 100
    ∧ (GpuMetric.Utilization 50).as_percentage = 50 :=
  ⟨by norm_num, by norm_num, c5_utilization_identity 50 (by norm_num) (by norm_num)⟩

/-- C6: for every `GpuMetric` value satisfying the data-model invariant
(`Utilization` payloads lie in `[0,100]`; `Power` is unrestricted),
`as_percentage()` is never negative; and the division in the `Power` arm is
guarded, so the zero-limit and unknown-limit cases return exactly `0`
(in this exact-rational model of `f32` no NaN can arise, and the guard shows
the one division is never taken with a zero divisor). -/
theorem c6_as_percentage_nonneg :
    (∀ m : GpuMetric, m.wf → 0 ≤ m.as_percentage)
    ∧ (∀ draw : Nat, (GpuMetric.Power draw (some 0)).as_percentage = 0)
    ∧ (∀ draw : Nat, (GpuMetric.Power draw none).as_percentage = 0) := by
  refine ⟨fun m hm => ?_, fun draw => rfl, fun draw => rfl⟩
  cases m with
  | Power draw limit =>
    cases limit with
    | none => simp [GpuMetric.as_percentage]
    | some L =>
      rcases Nat.eq_zero_or_pos L with hL | hL
      · subst hL; simp [GpuMetric.as_percentage]
      · rw [c4_power_as_percentage.1 draw L hL]
        positivity
  | Utilization pct => exact hm.1

/-- Witness for C6: the invariant holds at `Utilization 30` and the projected
percentage is nonnegative there. -/
theorem c6_as_percentage_nonneg_witness :
    (GpuMetric.Utilization 30).wf ∧ 0 ≤ (GpuMetric.Utilization 30).as_percentage :=
  ⟨⟨by norm_num, by norm_num⟩,
    c6_as_percentage_nonneg.1 (GpuMetric.Utilization 30) ⟨by norm_num, by norm_num⟩⟩

/-- C10: for a `Power` metric with `limit_mw = some L`, `0 < L < draw`,
`as_percentage()` is exactly `draw/L*100` and is strictly greater than `100`:
the power arm performs no upper clamp. -/
theorem c10_power_no_upper_clamp (draw L : Nat) (hL : 0 < L) (hdraw : L < draw) :
    (GpuMetric.Power draw (some L)).as_percentage = (draw : Rat) / (L : Rat) * 100
    ∧ 100 < (GpuMetric.Power draw (some L)).as_percentage := by
  have heq := c4_power_as_percentage.1 draw L hL
  refine ⟨heq, ?_⟩
  rw [heq]
  have hLQ : (0 : Rat) < (L : Rat) := by exact_mod_cast hL
  have hdQ : (L : Rat) < (draw : Rat) := by exact_mod_cast hdraw
  have h1 : (1 : Rat) < (draw : Rat) / (L : Rat) := (one_lt_div hLQ).mpr hdQ
  linarith

/-- Witness for C10: at `draw = 250`, `limit = 200` the hypotheses hold and the
result `125` exceeds `100`. -/
theorem c10_power_no_upper_clamp_witness :
    (GpuMetric.Power 250 (some 200)).as_percentage = (250 : Rat) / (200 : Rat) * 100
    ∧ 100 < (GpuMetric.Power 250 (some 200)).as_percentage :=
  c10_power_no_upper_clamp 250 200 (by norm_num) (by norm_num)

theorem pmGet_pmInsert (m : ProcMap) (k j : Nat) (v : Nat × Nat) :
    pmGet (pmInsert m k v) j = if j = k then some v else pmGet m j := by
  induction m with
  | nil =>
    simp only [pmInsert, pmGet]
    by_cases h : j = k
    · subst h; simp
    · simp [h, Ne.symm h]
  | cons e rest ih =>
    simp only [pmInsert]
    by_cases he : e.1 = k
    · rw [if_pos he]
      by_cases h : j = k
      · subst h; simp [pmGet]
      · simp only [pmGet, if_neg h]
        have hek : e.1 ≠ j := by rw [he]; exact fun hc => h hc.symm
        rw [if_neg (fun hc : k = j => h hc.symm), if_neg hek]
    · rw [if_neg he]
      simp only [pmGet]
      by_cases hj : e.1 = j
      · have hjk : ¬ j = k := by rw [← hj]; exact fun hc => he hc
        rw [if_pos hj, if_pos hj, if_neg hjk]
      · rw [if_neg hj, if_neg hj, ih]

theorem memStep_preserves_util (m : ProcMap) (s : ProcSample) (pid a u : Nat)
    (h : pmGet m pid = some (a, u)) :
    ∃ b, pmGet (memStep m s) pid = some (b, u) := by
  unfold memStep
  rcases hps : pmGet m s.pid with _ | prev
  · by_cases hp : pid = s.pid
    · rw [hp] at h; rw [h] at hps; exact absurd hps (by simp)
    · exact ⟨a, by rw [pmGet_pmInsert, if_neg hp, h]⟩
  · by_cases hp : pid = s.pid
    · subst hp
      rw [h] at hps
      cases hps
      exact ⟨memOf s.used_gpu_memory, by rw [pmGet_pmInsert, if_pos rfl]⟩
    · exact ⟨a, by rw [pmGet_pmInsert, if_neg hp, h]⟩

theorem passMem_preserves_util (xs : List ProcSample) (m : ProcMap)
    (pid a u : Nat) (h : pmGet m pid = some (a, u)) :
    ∃ b, pmGet (passMem xs m) pid = some (b, u) := by
  induction xs generalizing m a with
  | nil => exact ⟨a, h⟩
  | cons s rest ih =>
    obtain ⟨b, hb⟩ := memStep_preserves_util m s pid a u h
    obtain ⟨c, hc⟩ := ih (memStep m s) b hb
    exact ⟨c, hc⟩

/-- The device of C2's scenario: pid `P` reported with memory 500 by the
graphics-v2 API and memory 800 by the legacy v1 API; every other source
fails. -/
def c2device (P : Nat) : NvmlDevice :=
  { name := none
    memory_info := none
    temperature := none
    process_utilization_stats := none
    running_compute_processes := none
    running_graphics_processes_v2 := some [⟨P, some 500⟩]
    running_graphics_processes := some [⟨P, some 800⟩]
    power_usage := none
    power_management_limit := none }

/-- C2: each memory pass unconditionally overwrites `memory_bytes` of an
existing per-pid entry while keeping its `utilization_pct` (first conjunct:
the overwrite on one step; second conjunct: a whole pass never changes the
utilization component of an existing entry); consequently a pid reported with
memory 500 by graphics-v2 and memory 800 by the legacy v1 API (consulted
last) merges to memory 800 with utilization untouched (third conjunct). -/
theorem c2_memory_passes_last_wins :
    (∀ (m : ProcMap) (s : ProcSample) (prev : Nat × Nat),
      pmGet m s.pid = some prev →
      pmGet (memStep m s) s.pid = some (memOf s.used_gpu_memory, prev.2))
    ∧ (∀ (xs : List ProcSample) (m : ProcMap) (pid a u : Nat),
        pmGet m pid = some (a, u) →
        ∃ b, pmGet (passMem xs m) pid = some (b, u))
    ∧ (∀ P : Nat, pmGet (mergeDeviceProcs (c2device P)) P = some (800, 0)) := by
  refine ⟨fun m s prev h => ?_, passMem_preserves_util, fun P => ?_⟩
  · unfold memStep
    rw [h]
    rw [pmGet_pmInsert, if_pos rfl]
  · simp [mergeDeviceProcs, c2device, passMem, memStep, pmGet, pmInsert, memOf]

/-- Witness for C2: a map holding pid 5 with `(memory, util) = (1, 9)`; one
overwrite step with sample `(pid 5, memory 42)` yields `(42, 9)`, and a pass
over a sample for pid 7 leaves pid 5's utilization at 9. -/
theorem c2_memory_passes_last_wins_witness :
    pmGet (memStep [(5, 1, 9)] ⟨5, some 42⟩) 5 = some (42, 9)
    ∧ ∃ b, pmGet (passMem [⟨7, some 3⟩] [(5, 1, 9)]) 5 = some (b, 9) :=
  ⟨c2_memory_passes_last_wins.1 [(5, 1, 9)] ⟨5, some 42⟩ (1, 9) rfl,
   c2_memory_passes_last_wins.2.1 [⟨7, some 3⟩] [(5, 1, 9)] 5 1 9 rfl⟩

/-- The device of C3's scenario: pid `P` reported by the engine-utilization
pass with engine busy percentages summing to 30, and by the compute-process
pass with memory 1024; the graphics passes fail. -/
def c3device (P : Nat) : NvmlDevice :=
  { name := none
    memory_info := none
    temperature := none
    process_utilization_stats := some [⟨P, 10, 12, 8⟩]
    running_compute_processes := some [⟨P, some 1024⟩]
    running_graphics_processes_v2 := none
    running_graphics_processes := none
    power_usage := none
    power_management_limit := none }

/-- C3: pass 1 seeds `utilization_pct` with the sum of the sm, encode and
decode busy percentages and defaults `memory_bytes` to 0 (first conjunct, for
any non-wrapping `u32` sum); the native `Unavailable` memory sentinel maps to
0 (second conjunct); and a pid with utilization 30 from pass 1 and memory
1024 from pass 2 merges to `(memory 1024, utilization 30)` (third
conjunct). -/
theorem c3_fields_compose_across_passes :
    (∀ (P sm enc dec : Nat), sm + enc + dec < 2 ^ 32 →
      pmGet (passUtil [⟨P, sm, enc, dec⟩] []) P = some (0, sm + enc + dec))
    ∧ memOf none = 0
    ∧ (∀ P : Nat, pmGet (mergeDeviceProcs (c3device P)) P = some (1024, 30)) := by
  refine ⟨fun P sm enc dec h => ?_, rfl, fun P => ?_⟩
  · simp [passUtil, utilStep, pmInsert, pmGet, Nat.mod_eq_of_lt h]
    omega
  · simp [mergeDeviceProcs, c3device, passUtil, utilStep, passMem, memStep,
      pmGet, pmInsert, memOf]

/-- Witness for C3: at `(sm, enc, dec) = (10, 12, 8)` the sum 30 is below
`2^32` and pass 1 stores `(0, 30)`. -/
theorem c3_fields_compose_across_passes_witness :
    pmGet (passUtil [⟨1, 10, 12, 8⟩] []) 1 = some (0, 10 + 12 + 8) :=
  c3_fields_compose_across_passes.1 1 10 12 8 (by norm_num)

/-- Device 0 of C9's scenario: its process queries succeed but report zero
processes, and its memory total is `T0`. -/
def c9dev0 (T0 : Nat) : NvmlDevice :=
  { name := some "GPU A"
    memory_info := some (T0, 0)
    temperature := none
    process_utilization_stats := some []
    running_compute_processes := some []
    running_graphics_processes_v2 := some []
    running_graphics_processes := some []
    power_usage := none
    power_management_limit := none }

/-- Device 1 of C9's scenario: one compute process `(pid, mem)`, memory total
`T1`. -/
def c9dev1 (T1 pid mem : Nat) : NvmlDevice :=
  { name := some "GPU B"
    memory_info := some (T1, 0)
    temperature := none
    process_utilization_stats := some []
    running_compute_processes := some [⟨pid, some mem⟩]
    running_graphics_processes_v2 := some []
    running_graphics_processes := some []
    power_usage := none
    power_management_limit := none }

/-- The two-device NVML environment of C9's scenario. -/
def c9env (T0 T1 pid mem : Nat) : NvmlEnv :=
  { init_ok := true
    device_count := some 2
    devices := fun i =>
      if i = 0 then some (c9dev0 T0)
      else if i = 1 then some (c9dev1 T1 pid mem) else none }

/-- C9: with process accounting requested, a device whose merged per-pid map
is empty (device 0) contributes no entry to the returned per-device process
vector, yet its memory total `T0` is still accumulated into the grand total
returned alongside the vector: the result's process vertical is
`(T0 + T1, [merged map of device 1])`. -/
theorem c9_empty_merge_still_counts_total (T0 T1 pid mem : Nat) :
    (get_nvidia_vecs none ⟨false, false, true, false⟩ (c9env T0 T1 pid mem)).1
      = some
        { memory := none
          temperature := none
          procs := some (T0 + T1, [[(pid, mem, 0)]])
          gpu_data := none } := by
  simp [get_nvidia_vecs, c9env, c9dev0, c9dev1, visitDevice, memSection,
    tempSection, procSection, gpuSection, mergeDeviceProcs, passUtil, passMem,
    memStep, pmGet, pmInsert, memOf, List.range_succ]

theorem visitDevice_memPushes_nil (filter : Option (String → Bool))
    (w : UsedWidgets) (env : NvmlEnv) (i : Nat) (h : w.use_mem = false) :
    (visitDevice filter w env i).memPushes = [] := by
  rcases hd : env.devices i with _ | d
  · simp [visitDevice, hd]
  · rcases hn : d.name with _ | nm <;> simp [visitDevice, hd, hn, memSection, h]

theorem visitDevice_tempPushes_nil (filter : Option (String → Bool))
    (w : UsedWidgets) (env : NvmlEnv) (i : Nat) (h : w.use_temp = false) :
    (visitDevice filter w env i).tempPushes = [] := by
  rcases hd : env.devices i with _ | d
  · simp [visitDevice, hd]
  · rcases hn : d.name with _ | nm <;> simp [visitDevice, hd, hn, tempSection, h]

theorem visitDevice_procPushes_nil (filter : Option (String → Bool))
    (w : UsedWidgets) (env : NvmlEnv) (i : Nat) (h : w.use_proc = false) :
    (visitDevice filter w env i).procPushes = [] := by
  rcases hd : env.devices i with _ | d
  · simp [visitDevice, hd]
  · rcases hn : d.name with _ | nm <;> simp [visitDevice, hd, hn, procSection, h]

theorem visitDevice_gpuPushes_nil (filter : Option (String → Bool))
    (w : UsedWidgets) (env : NvmlEnv) (i : Nat) (h : w.use_gpu = false) :
    (visitDevice filter w env i).gpuPushes = [] := by
  rcases hd : env.devices i with _ | d
  · simp [visitDevice, hd]
  · rcases hn : d.name with _ | nm <;> simp [visitDevice, hd, hn, gpuSection, h]

theorem steps_memPushes_nil (filter : Option (String → Bool)) (w : UsedWidgets)
    (env : NvmlEnv) (n : Nat) (h : w.use_mem = false) :
    ((List.range n).map (visitDevice filter w env)).flatMap
      DeviceStep.memPushes = [] := by
  rw [List.flatMap_eq_nil_iff]
  intro b hb
  rw [List.mem_map] at hb
  obtain ⟨i, _, rfl⟩ := hb
  exact visitDevice_memPushes_nil filter w env i h

theorem steps_tempPushes_nil (filter : Option (String → Bool)) (w : UsedWidgets)
    (env : NvmlEnv) (n : Nat) (h : w.use_temp = false) :
    ((List.range n).map (visitDevice filter w env)).flatMap
      DeviceStep.tempPushes = [] := by
  rw [List.flatMap_eq_nil_iff]
  intro b hb
  rw [List.mem_map] at hb
  obtain ⟨i, _, rfl⟩ := hb
  exact visitDevice_tempPushes_nil filter w env i h

theorem steps_procPushes_nil (filter : Option (String → Bool)) (w : UsedWidgets)
    (env : NvmlEnv) (n : Nat) (h : w.use_proc = false) :
    ((List.range n).map (visitDevice filter w env)).flatMap
      DeviceStep.procPushes = [] := by
  rw [List.flatMap_eq_nil_iff]
  intro b hb
  rw [List.mem_map] at hb
  obtain ⟨i, _, rfl⟩ := hb
  exact visitDevice_procPushes_nil filter w env i h

theorem steps_gpuPushes_nil (filter : Option (String → Bool)) (w : UsedWidgets)
    (env : NvmlEnv) (n : Nat) (h : w.use_gpu = false) :
    ((List.range n).map (visitDevice filter w env)).flatMap
      DeviceStep.gpuPushes = [] := by
  rw [List.flatMap_eq_nil_iff]
  intro b hb
  rw [List.mem_map] at hb
  obtain ⟨i, _, rfl⟩ := hb
  exact visitDevice_gpuPushes_nil filter w env i h

theorem emptiness_guard_ne_some_nil {α : Type} (l : List α) :
    (if !l.isEmpty then some l else none) ≠ some ([] : List α) := by
  cases l <;> simp

theorem emptiness_guard_ne_some_pair_nil {α : Type} (l : List α) (total t : Nat) :
    (if !l.isEmpty then some (total, l) else none) ≠ some (t, ([] : List α)) := by
  cases l <;> simp

/-- C7: on both probes every vertical of the result is absent (`none`) whenever
it was not requested or zero items were produced for it — never present but
empty, never carrying an error payload — and zero discovered devices yields an
absent result for every vertical.  Nvidia part: a returned `GpusData` has no
`some []` vertical, and an unset flag forces `none` for that vertical; zero
devices give the fully-absent bundle.  Apple part: an unset `use_gpu` flag or
zero yielded services give `none`, and any `some` result carries a nonempty
device list. -/
theorem c7_absent_not_empty :
    (∀ (filter : Option (String → Bool)) (w : UsedWidgets) (env : NvmlEnv)
      (g : GpusData), (get_nvidia_vecs filter w env).1 = some g →
        (g.memory ≠ some [] ∧ g.temperature ≠ some []
          ∧ (∀ t : Nat, g.procs ≠ some (t, []))
          ∧ g.gpu_data ≠ some [])
        ∧ (w.use_mem = false → g.memory = none)
        ∧ (w.use_temp = false → g.temperature = none)
        ∧ (w.use_proc = false → g.procs = none)
        ∧ (w.use_gpu = false → g.gpu_data = none))
    ∧ (∀ (filter : Option (String → Bool)) (w : UsedWidgets) (env : NvmlEnv),
        env.init_ok = true → env.device_count = some 0 →
        (get_nvidia_vecs filter w env).1
          = some { memory := none, temperature := none, procs := none,
                   gpu_data := none })
    ∧ (∀ (w : UsedWidgets) (env : AppleEnv), w.use_gpu = false →
        (get_apple_gpu_vecs w env).1 = none)
    ∧ (∀ (w : UsedWidgets) (env : AppleEnv) (r : AppleGpusData),
        (get_apple_gpu_vecs w env).1 = some r →
        ∃ l, r.gpu_data = some l ∧ l ≠ [])
    ∧ (∀ (w : UsedWidgets) (env : AppleEnv), env.services = [] →
        (get_apple_gpu_vecs w env).1 = none) := by
  refine ⟨?_, ?_, ?_, ?_, ?_⟩
  · intro filter w env g hg
    cases hinit : env.init_ok with
    | false => simp [get_nvidia_vecs, hinit] at hg
    | true =>
      rcases hk : env.device_count with _ | n
      · simp [get_nvidia_vecs, hinit, hk] at hg
      · simp only [get_nvidia_vecs, hinit, hk, if_true, Option.some.injEq] at hg
        subst hg
        refine ⟨⟨emptiness_guard_ne_some_nil _, emptiness_guard_ne_some_nil _,
          fun t => emptiness_guard_ne_some_pair_nil _ _ t,
          emptiness_guard_ne_some_nil _⟩, ?_, ?_, ?_, ?_⟩
        · intro hm
          simp [steps_memPushes_nil filter w env n hm]
        · intro ht
          simp [steps_tempPushes_nil filter w env n ht]
        · intro hp
          simp [steps_procPushes_nil filter w env n hp]
        · intro hgp
          simp [steps_gpuPushes_nil filter w env n hgp]
  · intro filter w env h1 h2
    simp [get_nvidia_vecs, h1, h2]
  · intro w env h
    simp [get_apple_gpu_vecs, h]
  · intro w env r hr
    cases hw : w.use_gpu with
    | false => simp [get_apple_gpu_vecs, hw] at hr
    | true =>
      cases hm : env.matching_ok with
      | false => simp [get_apple_gpu_vecs, collect_gpu_data, hw, hm] at hr
      | true =>
        cases hs : env.services_ok with
        | false => simp [get_apple_gpu_vecs, collect_gpu_data, hw, hm, hs] at hr
        | true =>
          rcases hv : env.services.filterMap extract_gpu_data_from_service
            with _ | ⟨x, xs⟩
          · simp [get_apple_gpu_vecs, collect_gpu_data, hw, hm, hs, hv] at hr
          · simp only [get_apple_gpu_vecs, collect_gpu_data, hw, hm, hs, hv,
              Bool.not_true, Bool.false_eq_true, if_false, List.isEmpty_cons,
              Option.some.injEq] at hr
            subst hr
            exact ⟨x :: xs, rfl, by simp⟩
  · intro w env h
    cases hg : w.use_gpu <;> cases hm : env.matching_ok
      <;> cases hs : env.services_ok
      <;> simp [get_apple_gpu_vecs, collect_gpu_data, hg, hm, hs, h]

/-- Witness for C7: a zero-device NVML environment gives the fully-absent
bundle, and an apple environment with zero services gives `none`. -/
theorem c7_absent_not_empty_witness :
    (get_nvidia_vecs none ⟨false, false, false, false⟩
        { init_ok := true, device_count := some 0, devices := fun _ => none }).1
      = some { memory := none, temperature := none, procs := none,
               gpu_data := none }
    ∧ (get_apple_gpu_vecs ⟨true, true, true, true⟩
        { matching_ok := true, services_ok := true, services := [] }).1 = none :=
  ⟨c7_absent_not_empty.2.1 none ⟨false, false, false, false⟩
      { init_ok := true, device_count := some 0, devices := fun _ => none }
      rfl rfl,
   c7_absent_not_empty.2.2.2.2 ⟨true, true, true, true⟩
      { matching_ok := true, services_ok := true, services := [] } rfl⟩

/-- The performance-statistics dictionary of C8's scenario: the single key
`"Device Utilization %"` holding the numeric value `v`. -/
def c8props (v : Rat) : AppleProps :=
  { perf_stats :=
      some fun s =>
        if s = "Device Utilization %" then some (CFValue.number v) else none }

/-- C8: whenever the performance-statistics dictionary is present, the fixed
key list is consulted in its fixed order (first conjunct ties the function to
`utilization_keys`); the first key whose lookup yields a numeric value wins
and stops the scan, the value being clamped to `[0,100]` (second conjunct:
the consulted-key trace is exactly `[k]`); an absent key lets the scan move
on to the next key (third conjunct); and raw readings `137.5` and `-4` come
out at the boundaries `100` and `0` (last conjuncts). -/
theorem c8_first_key_wins_clamped :
    (∀ (properties : AppleProps) (ps : String → Option CFValue),
      properties.perf_stats = some ps →
      get_utilization_from_properties properties = (lookupUtil ps utilization_keys).1)
    ∧ (∀ (ps : String → Option CFValue) (k : String) (rest : List String)
        (v : Rat), ps k = some (CFValue.number v) →
        lookupUtil ps (k :: rest) = (some (min (max v 0) 100), [k]))
    ∧ (∀ (ps : String → Option CFValue) (k : String) (rest : List String),
        ps k = none →
        lookupUtil ps (k :: rest)
          = ((lookupUtil ps rest).1, k :: (lookupUtil ps rest).2))
    ∧ get_utilization_from_properties (c8props (275 / 2)) = some 100
    ∧ get_utilization_from_properties (c8props (-4)) = some 0 := by
  refine ⟨fun properties ps h => ?_, fun ps k rest v h => ?_,
    fun ps k rest h => ?_, ?_, ?_⟩
  · simp [get_utilization_from_properties, h]
  · simp [lookupUtil, h, extract_number, clampPct]
  · simp [lookupUtil, h]
  · simp [get_utilization_from_properties, c8props, utilization_keys,
      lookupUtil, extract_number, clampPct]
    norm_num
  · simp [get_utilization_from_properties, c8props, utilization_keys,
      lookupUtil, extract_number, clampPct]

theorem memSection_calls_shape (w : UsedWidgets) (d : NvmlDevice) (nm : String)
    (i : Nat) : ∀ c ∈ (memSection w d nm i).2,
      w.use_mem = true ∧ c = NCall.memoryInfo i := by
  intro c hc
  cases hw : w.use_mem with
  | false => simp [memSection, hw] at hc
  | true =>
    refine ⟨rfl, ?_⟩
    rcases hmi : d.memory_info with _ | mi
    · simpa [memSection, hw, hmi] using hc
    · by_cases hz : mi.1 ≠ 0
      · simpa [memSection, hw, hmi, hz] using hc
      · simpa [memSection, hw, hmi, hz] using hc

theorem tempSection_calls_shape (filter : Option (String → Bool))
    (w : UsedWidgets) (d : NvmlDevice) (nm : String) (i : Nat) :
    ∀ c ∈ (tempSection filter w d nm i).2,
      w.use_temp = true ∧ c = NCall.temperature i := by
  intro c hc
  cases hw : w.use_temp with
  | false => simp [tempSection, hw] at hc
  | true =>
    refine ⟨rfl, ?_⟩
    by_cases hk : optional_should_keep filter nm
    · rcases ht : d.temperature with _ | t
      · simpa [tempSection, hw, hk, ht] using hc
      · simpa [tempSection, hw, hk, ht] using hc
    · simp [tempSection, hw, hk] at hc

theorem procSection_calls_shape (w : UsedWidgets) (d : NvmlDevice) (i : Nat) :
    ∀ c ∈ (procSection w d i).2.2,
      w.use_proc = true
      ∧ (c = NCall.processUtilizationStats i
        ∨ c = NCall.runningComputeProcesses i
        ∨ c = NCall.runningGraphicsProcessesV2 i
        ∨ c = NCall.runningGraphicsProcesses i
        ∨ c = NCall.memoryInfo i) := by
  intro c hc
  cases hw : w.use_proc with
  | false => simp [procSection, hw] at hc
  | true =>
    refine ⟨rfl, ?_⟩
    simpa [procSection, hw] using hc

theorem gpuSection_calls_shape (w : UsedWidgets) (d : NvmlDevice) (i : Nat) :
    ∀ c ∈ (gpuSection w d i).2,
      w.use_gpu = true
      ∧ (c = NCall.name i ∨ c = NCall.powerUsage i
        ∨ c = NCall.powerManagementLimit i) := by
  intro c hc
  cases hw : w.use_gpu with
  | false => simp [gpuSection, hw] at hc
  | true =>
    refine ⟨rfl, ?_⟩
    rcases hn : d.name with _ | nm
    · have h' : c = NCall.name i := by simpa [gpuSection, hw, hn] using hc
      exact Or.inl h'
    · rcases hp : d.power_usage with _ | p
      · have h' : c = NCall.name i ∨ c = NCall.powerUsage i := by
          simpa [gpuSection, hw, hn, hp] using hc
        rcases h' with h' | h'
        · exact Or.inl h'
        · exact Or.inr (Or.inl h')
      · simpa [gpuSection, hw, hn, hp] using hc

theorem visitDevice_calls_shape (filter : Option (String → Bool))
    (w : UsedWidgets) (env : NvmlEnv) (i : Nat) :
    ∀ c ∈ (visitDevice filter w env i).calls,
      c = NCall.deviceByIndex i ∨ c = NCall.name i
      ∨ (w.use_mem = true ∧ c = NCall.memoryInfo i)
      ∨ (w.use_temp = true ∧ c = NCall.temperature i)
      ∨ (w.use_proc = true
          ∧ (c = NCall.processUtilizationStats i
            ∨ c = NCall.runningComputeProcesses i
            ∨ c = NCall.runningGraphicsProcessesV2 i
            ∨ c = NCall.runningGraphicsProcesses i
            ∨ c = NCall.memoryInfo i))
      ∨ (w.use_gpu = true
          ∧ (c = NCall.name i ∨ c = NCall.powerUsage i
            ∨ c = NCall.powerManagementLimit i)) := by
  intro c hc
  rcases hd : env.devices i with _ | d
  · simp [visitDevice, hd] at hc
    exact Or.inl hc
  · rcases hn : d.name with _ | nm
    · have hc' : c = NCall.deviceByIndex i ∨ c = NCall.name i
          ∨ c ∈ (procSection w d i).2.2 ∨ c ∈ (gpuSection w d i).2 := by
        simpa [visitDevice, hd, hn, or_assoc] using hc
      rcases hc' with h | h | h | h
      · exact Or.inl h
      · exact Or.inr (Or.inl h)
      · have := procSection_calls_shape w d i c h
        exact Or.inr (Or.inr (Or.inr (Or.inr (Or.inl this))))
      · have := gpuSection_calls_shape w d i c h
        exact Or.inr (Or.inr (Or.inr (Or.inr (Or.inr this))))
    · have hc' : c = NCall.deviceByIndex i ∨ c = NCall.name i
          ∨ c ∈ (memSection w d nm i).2 ∨ c ∈ (tempSection filter w d nm i).2
          ∨ c ∈ (procSection w d i).2.2 ∨ c ∈ (gpuSection w d i).2 := by
        simpa [visitDevice, hd, hn, or_assoc] using hc
      rcases hc' with h | h | h | h | h | h
      · exact Or.inl h
      · exact Or.inr (Or.inl h)
      · have := memSection_calls_shape w d nm i c h
        exact Or.inr (Or.inr (Or.inl this))
      · have := tempSection_calls_shape filter w d nm i c h
        exact Or.inr (Or.inr (Or.inr (Or.inl this)))
      · have := procSection_calls_shape w d i c h
        exact Or.inr (Or.inr (Or.inr (Or.inr (Or.inl this))))
      · have := gpuSection_calls_shape w d i c h
        exact Or.inr (Or.inr (Or.inr (Or.inr (Or.inr this))))

theorem nvidia_trace_shape (filter : Option (String → Bool)) (w : UsedWidgets)
    (env : NvmlEnv) (c : NCall) (hc : c ∈ (get_nvidia_vecs filter w env).2) :
    c = NCall.init ∨ c = NCall.deviceCount
    ∨ ∃ i, c = NCall.deviceByIndex i ∨ c = NCall.name i
      ∨ (w.use_mem = true ∧ c = NCall.memoryInfo i)
      ∨ (w.use_temp = true ∧ c = NCall.temperature i)
      ∨ (w.use_proc = true
          ∧ (c = NCall.processUtilizationStats i
            ∨ c = NCall.runningComputeProcesses i
            ∨ c = NCall.runningGraphicsProcessesV2 i
            ∨ c = NCall.runningGraphicsProcesses i
            ∨ c = NCall.memoryInfo i))
      ∨ (w.use_gpu = true
          ∧ (c = NCall.name i ∨ c = NCall.powerUsage i
            ∨ c = NCall.powerManagementLimit i)) := by
  cases hinit : env.init_ok with
  | false =>
    simp [get_nvidia_vecs, hinit] at hc
    exact Or.inl hc
  | true =>
    rcases hk : env.device_count with _ | n
    · simp [get_nvidia_vecs, hinit, hk] at hc
      rcases hc with h | h
      · exact Or.inl h
      · exact Or.inr (Or.inl h)
    · simp only [get_nvidia_vecs, hinit, hk, if_true, List.mem_cons,
        List.mem_flatMap, List.mem_map] at hc
      rcases hc with h | h | ⟨step, ⟨i, _, rfl⟩, hstep⟩
      · exact Or.inl h
      · exact Or.inr (Or.inl h)
      · exact Or.inr (Or.inr ⟨i, visitDevice_calls_shape filter w env i c hstep⟩)

/-- Witness for C8: a dictionary whose first present key holds `50` is read
through the key loop with only that key consulted and no clamping effect. -/
theorem c8_first_key_wins_clamped_witness :
    lookupUtil (fun s => if s = "GPU Activity(%)"
        then some (CFValue.number 50) else none)
      ["GPU Activity(%)", "GPU Core Utilization"]
      = (some (min (max (50 : Rat) 0) 100), ["GPU Activity(%)"]) :=
  c8_first_key_wins_clamped.2.1
    (fun s => if s = "GPU Activity(%)" then some (CFValue.number 50) else none)
    "GPU Activity(%)" ["GPU Core Utilization"] 50 (by simp)

/-- The single-device NVML environment of C1's scenario: one device whose name
reads successfully and all of whose other queries fail. -/
def c1dev : NvmlDevice :=
  { name := some "GPU0"
    memory_info := none
    temperature := none
    process_utilization_stats := none
    running_compute_processes := none
    running_graphics_processes_v2 := none
    running_graphics_processes := none
    power_usage := none
    power_management_limit := none }

/-- One NVML device at index 0, successful driver init. -/
def c1env : NvmlEnv :=
  { init_ok := true
    device_count := some 1
    devices := fun _ => some c1dev }

/-- Counterexample to C1 as stated: with all four demand flags false and one
discovered device, `get_nvidia_vecs` still issues native queries — the driver
init, the device count, the device-handle lookup and the `device.name()` call
of line 110 of `src/collection/nvidia.rs` — so the trace is not empty and in
particular contains a per-device native call. -/
theorem c1_counterexample :
    (get_nvidia_vecs none ⟨false, false, false, false⟩ c1env).2
      = [NCall.init, NCall.deviceCount, NCall.deviceByIndex 0, NCall.name 0]
    ∧ NCall.name 0 ∈ (get_nvidia_vecs none ⟨false, false, false, false⟩ c1env).2
    ∧ (get_nvidia_vecs none ⟨false, false, false, false⟩ c1env).2 ≠ [] := by
  refine ⟨rfl, ?_, ?_⟩ <;> simp [get_nvidia_vecs, c1env, c1dev, visitDevice,
    memSection, tempSection, procSection, gpuSection]

/-- C1 (amended): only the verticals whose demand flags are set are populated,
and an unrequested vertical triggers none of its vertical-specific native
calls — no `temperature` call without `use_temp`, none of the four process
queries without `use_proc`, no power query without `use_gpu`, and no
`memory_info` call when both `use_mem` and `use_proc` are unset (the process
vertical also queries `memory_info` for its grand total) — but device
enumeration (driver init, device count, device handle, `device.name()`) is
performed regardless of the flags, so with all four flags false the trace
consists exactly of such enumeration calls and every vertical of the returned
result is absent.  On the apple probe an unset `use_gpu` flag returns before
any native call. -/
theorem c1_unrequested_vertical_guards :
    (∀ (filter : Option (String → Bool)) (w : UsedWidgets) (env : NvmlEnv)
      (i : Nat), w.use_temp = false →
      NCall.temperature i ∉ (get_nvidia_vecs filter w env).2)
    ∧ (∀ (filter : Option (String → Bool)) (w : UsedWidgets) (env : NvmlEnv)
        (i : Nat), w.use_proc = false →
        NCall.processUtilizationStats i ∉ (get_nvidia_vecs filter w env).2
        ∧ NCall.runningComputeProcesses i ∉ (get_nvidia_vecs filter w env).2
        ∧ NCall.runningGraphicsProcessesV2 i ∉ (get_nvidia_vecs filter w env).2
        ∧ NCall.runningGraphicsProcesses i ∉ (get_nvidia_vecs filter w env).2)
    ∧ (∀ (filter : Option (String → Bool)) (w : UsedWidgets) (env : NvmlEnv)
        (i : Nat), w.use_gpu = false →
        NCall.powerUsage i ∉ (get_nvidia_vecs filter w env).2
        ∧ NCall.powerManagementLimit i ∉ (get_nvidia_vecs filter w env).2)
    ∧ (∀ (filter : Option (String → Bool)) (w : UsedWidgets) (env : NvmlEnv)
        (i : Nat), w.use_mem = false → w.use_proc = false →
        NCall.memoryInfo i ∉ (get_nvidia_vecs filter w env).2)
    ∧ (∀ (filter : Option (String → Bool)) (env : NvmlEnv) (g : GpusData),
        (get_nvidia_vecs filter ⟨false, false, false, false⟩ env).1 = some g →
        g.memory = none ∧ g.temperature = none ∧ g.procs = none
          ∧ g.gpu_data = none)
    ∧ (∀ (filter : Option (String → Bool)) (env : NvmlEnv) (c : NCall),
        c ∈ (get_nvidia_vecs filter ⟨false, false, false, false⟩ env).2 →
        c = NCall.init ∨ c = NCall.deviceCount
          ∨ ∃ i, c = NCall.deviceByIndex i ∨ c = NCall.name i)
    ∧ (∀ (w : UsedWidgets) (env : AppleEnv), w.use_gpu = false →
        get_apple_gpu_vecs w env = (none, [])) := by
  refine ⟨?_, ?_, ?_, ?_, ?_, ?_, ?_⟩
  · intro filter w env i h hmem
    rcases nvidia_trace_shape filter w env _ hmem with h1 | h1 | ⟨j, h1⟩ <;>
      simp_all
  · intro filter w env i h
    refine ⟨fun hmem => ?_, fun hmem => ?_, fun hmem => ?_, fun hmem => ?_⟩ <;>
      (rcases nvidia_trace_shape filter w env _ hmem with h1 | h1 | ⟨j, h1⟩ <;>
        simp_all)
  · intro filter w env i h
    refine ⟨fun hmem => ?_, fun hmem => ?_⟩ <;>
      (rcases nvidia_trace_shape filter w env _ hmem with h1 | h1 | ⟨j, h1⟩ <;>
        simp_all)
  · intro filter w env i hm hp hmem
    rcases nvidia_trace_shape filter w env _ hmem with h1 | h1 | ⟨j, h1⟩ <;>
      simp_all
  · intro filter env g hg
    cases hinit : env.init_ok with
    | false => simp [get_nvidia_vecs, hinit] at hg
    | true =>
      rcases hk : env.device_count with _ | n
      · simp [get_nvidia_vecs, hinit, hk] at hg
      · simp only [get_nvidia_vecs, hinit, hk, if_true, Option.some.injEq] at hg
        subst hg
        refine ⟨?_, ?_, ?_, ?_⟩
        · simp [steps_memPushes_nil filter ⟨false, false, false, false⟩ env n rfl]
        · simp [steps_tempPushes_nil filter ⟨false, false, false, false⟩ env n rfl]
        · simp [steps_procPushes_nil filter ⟨false, false, false, false⟩ env n rfl]
        · simp [steps_gpuPushes_nil filter ⟨false, false, false, false⟩ env n rfl]
  · intro filter env c hmem
    rcases nvidia_trace_shape filter ⟨false, false, false, false⟩ env _ hmem
      with h1 | h1 | ⟨j, h1⟩
    · exact Or.inl h1
    · exact Or.inr (Or.inl h1)
    · rcases h1 with h1 | h1 | ⟨hf, _⟩ | ⟨hf, _⟩ | ⟨hf, _⟩ | ⟨hf, _⟩
      · exact Or.inr (Or.inr ⟨j, Or.inl h1⟩)
      · exact Or.inr (Or.inr ⟨j, Or.inr h1⟩)
      all_goals simp at hf
  · intro w env h
    simp [get_apple_gpu_vecs, h]

/-- Witness for C1 (amended): in the all-flags-false environment of the
counterexample, no temperature call appears in the trace, and the apple probe
with the flag unset returns `(none, [])`. -/
theorem c1_unrequested_vertical_guards_witness :
    NCall.temperature 0
        ∉ (get_nvidia_vecs none ⟨false, false, false, false⟩ c1env).2
    ∧ get_apple_gpu_vecs ⟨false, false, false, false⟩
        { matching_ok := true, services_ok := true, services := [] }
      = (none, []) :=
  ⟨c1_unrequested_vertical_guards.1 none ⟨false, false, false, false⟩ c1env 0 rfl,
   c1_unrequested_vertical_guards.2.2.2.2.2.2 ⟨false, false, false, false⟩
     { matching_ok := true, services_ok := true, services := [] } rfl⟩
